import Mathlib

/-!
Verification of the adaptive quad-to-triangle diagonal selection algorithm of
`triangulate_to_target.py` (the "Triangulate to Target" add-on).

Shallow embedding conventions, mirrored from the source:

* Vectors (`mathutils.Vector`) become `Vec3` with exact rational coordinates;
  Python float arithmetic is idealised as exact real/rational arithmetic
  (the spec's tolerances `1e-7`, `1e-5` become the exact rationals `1/10^7`,
  `1/10^5`).
* A Euclidean length `v.length = sqrt (v . v)` is irrational in general, so a
  nonnegative length is represented EXACTLY by its square in the wrapper type
  `Len` (field `sq`).  Every operation the source performs on lengths —
  comparison with a constant, comparison between two lengths, the `*= 1.1`
  penalty, taking a minimum — translates exactly to this representation; each
  `Len` operation's doc comment states the real-number fact justifying it.
  No addition of lengths occurs anywhere in the measured code, so the
  representation is closed under everything the source does.
* Host-application data that the source reads from Blender — a face's
  `.normal` and `.calc_area()`, an object's `matrix_world` together with its
  mathutils-computed `.inverted()`, and the BVH queries `find_nearest` /
  `ray_cast` — are external collaborator inputs (spec section 6) and are
  modelled as record fields / oracle functions carried by `Face`, `Aff` and
  `Target`.
* `.normalized()` in the source is applied only to vectors that are then used
  (a) in the sign test `face_normal.dot(world_normal) > 0`, or (b) as the
  direction argument of the opaque `ray_cast` oracle.  Normalising scales a
  nonzero vector by the positive factor `1/|v|` (and maps the zero vector to
  the zero vector), so it never changes the sign of a dot product; the
  embedding therefore keeps these vectors unnormalised, which is
  observationally identical for every property below.
* `bmesh` vertex identity: the four `BMVert`s of a quad face are distinct
  objects, so the identity tests `edge.verts[0] not in (vert1, vert2)` of the
  source become index (in `Fin 4`) disequality tests.
* `float('inf')` values: the measured distance is `Dist` (`inf` or a finite
  `Len`), and the max-search-distance argument, which `process_face` sets to
  `float('inf')` when the configured property is not positive, is `MaxDist`.
  Their comparison functions mirror IEEE comparisons with infinity on the
  values the program produces (no NaN arises: all operands are nonnegative
  reals or `inf`).
-/

namespace TriangulateToTarget

/-- A 3D vector with exact rational coordinates, modelling `mathutils.Vector`. -/
structure Vec3 where
  x : ℚ
  y : ℚ
  z : ℚ
deriving DecidableEq

instance : Add Vec3 := ⟨fun a b => ⟨a.x + b.x, a.y + b.y, a.z + b.z⟩⟩

instance : Sub Vec3 := ⟨fun a b => ⟨a.x - b.x, a.y - b.y, a.z - b.z⟩⟩

/-- Scalar multiple of a vector; `Vec3.smul (1/2) (a + b)` models `(a + b) / 2`. -/
def Vec3.smul (c : ℚ) (v : Vec3) : Vec3 := ⟨c * v.x, c * v.y, c * v.z⟩

/-- Dot product, modelling `Vector.dot`. -/
def Vec3.dot (a b : Vec3) : ℚ := a.x * b.x + a.y * b.y + a.z * b.z

/-- Cross product, modelling `Vector.cross`. -/
def Vec3.cross (a b : Vec3) : Vec3 :=
  ⟨a.y * b.z - a.z * b.y, a.z * b.x - a.x * b.z, a.x * b.y - a.y * b.x⟩

/-- The zero vector. -/
def Vec3.zero : Vec3 := ⟨0, 0, 0⟩

/-- Exact representation of a nonnegative real length by its square: a `Len`
with field `sq = s` denotes the real number `sqrt s`.  All `Len` values built
below have `sq ≥ 0` (they arise as `v . v` or as a nonnegative multiple of
such a value). -/
structure Len where
  sq : ℚ
deriving DecidableEq

/-- The Euclidean length of a vector, `v.length` in mathutils; represented
exactly by its square `v . v`. -/
def Vec3.length (v : Vec3) : Len := ⟨Vec3.dot v v⟩

/-- Comparison `length < c` against a rational constant.  For a nonnegative
real `sqrt s` and a real `c`: if `c ≤ 0` then `sqrt s < c` is false, and for
`c > 0`, `sqrt s < c ↔ s < c^2`; the encoding is exact. -/
def Len.ltQb (l : Len) (c : ℚ) : Bool := decide (0 < c ∧ l.sq < c ^ 2)

/-- Comparison `length ≤ c` against a rational constant.  For `c < 0` it is
false, and for `c ≥ 0`, `sqrt s ≤ c ↔ s ≤ c^2`; the encoding is exact. -/
def Len.leQb (l : Len) (c : ℚ) : Bool := decide (0 ≤ c ∧ l.sq ≤ c ^ 2)

/-- Comparison between two lengths: `sqrt a ≤ sqrt b ↔ a ≤ b` on
nonnegative squares; the encoding is exact. -/
def Len.leb (a b : Len) : Bool := decide (a.sq ≤ b.sq)

/-- Strict comparison between two lengths: `sqrt a < sqrt b ↔ a < b` on
nonnegative squares; the encoding is exact. -/
def Len.ltb (a b : Len) : Bool := decide (a.sq < b.sq)

/-- Multiplication of a length by a nonnegative scalar `c` (the source uses
`c = 1.1`): `c * sqrt s = sqrt (c^2 * s)`; the encoding is exact. -/
def Len.scale (c : ℚ) (l : Len) : Len := ⟨c ^ 2 * l.sq⟩

/-- A 3x3 matrix given by its rows; models the linear (rotation/scale) block
of a mathutils 4x4 `matrix_world`, i.e. `matrix_world.to_3x3()`. -/
structure Mat3 where
  r0 : Vec3
  r1 : Vec3
  r2 : Vec3
deriving DecidableEq

/-- Matrix-vector product. -/
def Mat3.mulVec (m : Mat3) (v : Vec3) : Vec3 := ⟨m.r0.dot v, m.r1.dot v, m.r2.dot v⟩

/-- Matrix transpose. -/
def Mat3.transpose (m : Mat3) : Mat3 :=
  ⟨⟨m.r0.x, m.r1.x, m.r2.x⟩, ⟨m.r0.y, m.r1.y, m.r2.y⟩, ⟨m.r0.z, m.r1.z, m.r2.z⟩⟩

/-- The identity matrix. -/
def Mat3.idMat : Mat3 := ⟨⟨1, 0, 0⟩, ⟨0, 1, 0⟩, ⟨0, 0, 1⟩⟩

/-- An object's world transform (`obj.matrix_world`), an affine map
`p ↦ lin p + tr`, TOGETHER with the host-computed inverse
(`matrix_world.inverted()`), carried as data `p ↦ invLin p + invTr` exactly as
the source receives it from mathutils.  For a 4x4 affine `M = [[A, t], [0, 1]]`
mathutils gives `M⁻¹ = [[A⁻¹, -A⁻¹t], [0, 1]]`; applied to a 3D vector,
`M⁻¹.transposed()` and `M.transposed().inverted()` both act as the linear map
`(A⁻¹)ᵀ = Aᵀ⁻¹` (the translation only enters the discarded fourth component),
which is `invLin.transpose` here — used for transforming normals. -/
structure Aff where
  lin : Mat3
  tr : Vec3
  invLin : Mat3
  invTr : Vec3
deriving DecidableEq

/-- Point transform `matrix_world @ p`. -/
def Aff.apply (a : Aff) (p : Vec3) : Vec3 := a.lin.mulVec p + a.tr

/-- Point transform by the host-computed inverse, `matrix_world.inverted() @ p`. -/
def Aff.applyInv (a : Aff) (p : Vec3) : Vec3 := a.invLin.mulVec p + a.invTr

/-- Normal (direction) transform: the common linear action of
`matrix_world.inverted().transposed() @ n` (line 287 of the source) and
`matrix_world.transposed().inverted() @ n` (lines 306 and 313); the source's
final `.normalized()` is dropped as it only rescales by a positive factor
(see the file header). -/
def Aff.normalXf (a : Aff) (n : Vec3) : Vec3 := a.invLin.transpose.mulVec n

/-- The identity transform (an object placed at the world origin). -/
def Aff.idAff : Aff := ⟨Mat3.idMat, Vec3.zero, Mat3.idMat, Vec3.zero⟩

/-- A quad `BMFace`: exactly four vertex positions in the face's fixed cyclic
order, plus the host-maintained `face.normal` (normalised by Blender) and
`face.calc_area()` — per spec section 6 both are inputs provided by the
excluded mesh-editing collaborator, so they are carried as data. -/
structure Face where
  v0 : Vec3
  v1 : Vec3
  v2 : Vec3
  v3 : Vec3
  normal : Vec3
  area : ℚ
deriving DecidableEq

/-- Vertex lookup `list(face.verts)[k]`. -/
def Face.vert (f : Face) (k : Fin 4) : Vec3 :=
  if k = 0 then f.v0 else if k = 1 then f.v1 else if k = 2 then f.v2 else f.v3

/-- The four edges of a quad face (`face.edges`), as index pairs of
cyclically consecutive vertices.  The stored endpoint order of a `BMEdge` is
arbitrary; every use below (edge vector length, cross product length,
endpoint membership) is insensitive to swapping the two endpoints. -/
def faceEdges : List (Fin 4 × Fin 4) := [(0, 1), (1, 2), (2, 3), (3, 0)]

/-- The tolerance `1e-7` of the geometry guards, as an exact rational. -/
def epsilonTol : ℚ := 1 / 10000000

/-- The default `threshold=1e-5` of `is_nearly_coplanar`, as an exact rational. -/
def coplanarDefault : ℚ := 1 / 100000

/-- `is_degenerate_face` (source lines 391-407): zero area, or near-zero
normal, or the two edge vectors from `v0` (to `v1` and to `v2`) collinear,
each at tolerance `1e-7`. -/
def is_degenerate_face (f : Face) : Bool :=
  decide (f.area < epsilonTol) || Len.ltQb f.normal.length epsilonTol ||
    Len.ltQb (Vec3.cross (f.v1 - f.v0) (f.v2 - f.v0)).length epsilonTol

/-- `has_zero_length_edges` (source lines 434-439): some edge has length
below `1e-7`. -/
def has_zero_length_edges (f : Face) : Bool :=
  faceEdges.any fun e => Len.ltQb (f.vert e.1 - f.vert e.2).length epsilonTol

/-- `has_self_intersection` (source lines 409-419): true when the diagonal
from vertex `i` to vertex `j` is parallel (cross product length `< 1e-7`) to
some face edge neither of whose endpoints is a diagonal endpoint.  `BMVert`
identity tests become index disequalities. -/
def has_self_intersection (f : Face) (i j : Fin 4) : Bool :=
  let diagonal := f.vert j - f.vert i
  faceEdges.any fun e =>
    if (e.1 ≠ i ∧ e.1 ≠ j) ∧ (e.2 ≠ i ∧ e.2 ≠ j) then
      Len.ltQb (Vec3.cross diagonal (f.vert e.2 - f.vert e.1)).length epsilonTol
    else false

/-- `is_nearly_coplanar` (source lines 421-432): every vertex after `v0` has
`abs (normal . (v - v0)) ≤ threshold`.  Since Blender keeps `face.normal`
normalised, this absolute value is the Euclidean distance of `v` to the plane
through `v0` with normal `face.normal`. -/
def is_nearly_coplanar (f : Face) (threshold : ℚ) : Bool :=
  [f.v1, f.v2, f.v3].all fun v => decide (|Vec3.dot f.normal (v - f.v0)| ≤ threshold)

/-- The target surface: its world transform plus the two opaque BVH query
oracles of spec section 6, `bvh.find_nearest` (from a local-space point) and
`bvh.ray_cast` (from a local-space point along a local-space direction), each
returning `(location, normal, distance)` or nothing (mathutils returns
all-`None` on a miss, here `none`; the unused face index is omitted). -/
structure Target where
  xform : Aff
  findNearest : Vec3 → Option (Vec3 × Vec3 × ℚ)
  rayCast : Vec3 → Vec3 → Option (Vec3 × Vec3 × ℚ)

/-- The max-search-distance float: `float('inf')` or a finite rational. -/
inductive MaxDist where
  | inf : MaxDist
  | fin (q : ℚ) : MaxDist
deriving DecidableEq

/-- Python `min_distance > max_distance` for a finite `min_distance` `m`:
false against `inf`, and `q < m` against a finite bound. -/
def MaxDist.gtQb (m : ℚ) : MaxDist → Bool
  | .inf => false
  | .fin q => decide (q < m)

/-- Python `max_distance > 0`: true for `inf` (as `inf > 0` holds in IEEE),
and `0 < q` for a finite bound. -/
def MaxDist.posb : MaxDist → Bool
  | .inf => true
  | .fin q => decide (0 < q)

/-- Ordering of effective search radii, with `inf` (unlimited search) as the
largest element. -/
def MaxDist.leb : MaxDist → MaxDist → Bool
  | .fin a, .fin b => decide (a ≤ b)
  | .fin _, .inf => true
  | .inf, .inf => true
  | .inf, .fin _ => false

/-- The contribution of one BVH query result to the `results` list of
`get_closest_point_on_target` (source lines 302-316): keep the result when
its surface normal, transformed to world space, has positive dot product with
the face normal (the front-facing filter; normalisation dropped as
sign-preserving), recording the world-space location and the BVH-reported
distance. -/
def frontFacingResult (t : Target) (face_normal : Vec3)
    (r : Option (Vec3 × Vec3 × ℚ)) : List (Vec3 × ℚ) :=
  match r with
  | some (loc, nrm, d) =>
      if 0 < Vec3.dot face_normal (t.xform.normalXf nrm) then
        [(t.xform.apply loc, d)]
      else []
  | none => []

/-- The `results` list of `get_closest_point_on_target` (source lines
286-316): transform the query point (and the face normal, as a direction) to
the target's local space, issue the nearest-point query and the ray cast, and
keep the front-facing survivors — nearest-point result first, ray result
second, as in the source. -/
def validResults (point : Vec3) (t : Target) (face_normal : Vec3) : List (Vec3 × ℚ) :=
  let local_point := t.xform.applyInv point
  let local_normal := t.xform.normalXf face_normal
  frontFacingResult t face_normal (t.findNearest local_point) ++
    frontFacingResult t face_normal (t.rayCast local_point local_normal)

/-- Python `min(results, key=lambda x: x[1])` preceded by the emptiness test:
`none` on the empty list, otherwise the first element of minimal second
component (Python's `min` keeps the earlier element on ties, i.e. replaces
the incumbent only on strict decrease). -/
def minBySnd : List (Vec3 × ℚ) → Option (Vec3 × ℚ)
  | [] => none
  | x :: xs => some (xs.foldl (fun best y => if y.2 < best.2 then y else best) x)

/-- `get_closest_point_on_target` (source lines 283-327): take the minimal
surviving result; discard it when the BVH-reported minimal distance exceeds
the max search distance AND that max is positive (`min_distance > max_distance
and max_distance > 0`). -/
def get_closest_point_on_target (point : Vec3) (t : Target) (face_normal : Vec3)
    (max_distance : MaxDist) : Option Vec3 :=
  match minBySnd (validResults point t face_normal) with
  | none => none
  | some (loc, m) =>
      if MaxDist.gtQb m max_distance && MaxDist.posb max_distance then none
      else some loc

/-- Midpoint of the diagonal from vertex `i` to vertex `j`,
`(verts[i].co + verts[j].co) / 2`. -/
def diagCenter (f : Face) (i j : Fin 4) : Vec3 := Vec3.smul (1 / 2) (f.vert i + f.vert j)

/-- The diagonal midpoint transformed to world space by the source object's
transform (`source_obj.matrix_world @ diagonal_center`). -/
def worldCenter (src : Aff) (f : Face) (i j : Fin 4) : Vec3 := src.apply (diagCenter f i j)

/-- The face normal transformed to world space,
`source_obj.matrix_world.to_3x3() @ face_normal` (the source's final
`.normalized()` is dropped as sign-preserving, see the file header). -/
def worldNormal (src : Aff) (f : Face) : Vec3 := src.lin.mulVec f.normal

/-- A measured diagonal distance: `float('inf')` or a finite length. -/
inductive Dist where
  | inf : Dist
  | fin (l : Len) : Dist
deriving DecidableEq

/-- Python `dist_02 <= dist_13` on measured distances, where `inf <= inf` and
`x <= inf` hold and `inf <= x` fails for finite `x`. -/
def Dist.leb : Dist → Dist → Bool
  | _, .inf => true
  | .inf, .fin _ => false
  | .fin a, .fin b => Len.leb a b

/-- `measure_diagonal_distance` (source lines 329-388): `inf` when there is
no target object; `inf` when `is_degenerate_face`, `has_zero_length_edges` or
`has_self_intersection` fires (each before any target query); otherwise query
the target at the world-space diagonal midpoint, `inf` when no valid
front-facing point survives, and otherwise the world-space distance to the
returned closest point, multiplied by `1.1` when the face is nearly coplanar
(at the default threshold `1e-5`). -/
def measure_diagonal_distance (f : Face) (i j : Fin 4) (target : Option Target)
    (max_distance : MaxDist) (src : Aff) : Dist :=
  match target with
  | none => .inf
  | some t =>
      if is_degenerate_face f then .inf
      else if has_zero_length_edges f then .inf
      else if has_self_intersection f i j then .inf
      else
        match get_closest_point_on_target (worldCenter src f i j) t
            (worldNormal src f) max_distance with
        | none => .inf
        | some closest =>
            let distance := (closest - worldCenter src f i j).length
            .fin (if is_nearly_coplanar f coplanarDefault then
              Len.scale (11 / 10) distance else distance)

/-- Variant of `measure_diagonal_distance` with the `has_self_intersection`
guard removed, used to state that for a quad's own diagonals that guard never
influences the measurement. -/
def measure_no_self_guard (f : Face) (i j : Fin 4) (target : Option Target)
    (max_distance : MaxDist) (src : Aff) : Dist :=
  match target with
  | none => .inf
  | some t =>
      if is_degenerate_face f then .inf
      else if has_zero_length_edges f then .inf
      else
        match get_closest_point_on_target (worldCenter src f i j) t
            (worldNormal src f) max_distance with
        | none => .inf
        | some closest =>
            let distance := (closest - worldCenter src f i j).length
            .fin (if is_nearly_coplanar f coplanarDefault then
              Len.scale (11 / 10) distance else distance)

/-- The effective max search distance of `process_face` (source line 149):
`props.max_distance if props.max_distance > 0 else float('inf')`. -/
def effectiveMaxDistance (p : ℚ) : MaxDist := if 0 < p then .fin p else .inf

/-- The per-face outcome of `process_face`: keep the quad, cut diagonal
0-2 (`A`), or cut diagonal 1-3 (`B`). -/
inductive Decision where
  | keepQuad : Decision
  | cutA : Decision
  | cutB : Decision
deriving DecidableEq

/-- The mesh mutation a decision performs: the diagonal edge passed to
`bmesh.ops.connect_verts`, or `none` when the face is left as a quad. -/
def Decision.addsEdge : Decision → Option (Fin 4 × Fin 4)
  | .keepQuad => none
  | .cutA => some (0, 2)
  | .cutB => some (1, 3)

/-- The distance between the two diagonal midpoints (`center_distance`,
source lines 152-156). -/
def centerDistance (f : Face) : Len := (diagCenter f 0 2 - diagCenter f 1 3).length

/-- `process_face` (source lines 145-213), as the per-face decision function:
keep the quad when the diagonal-midpoint distance is at most the planarity
threshold; otherwise measure both diagonals against the target and cut 0-2
when `dist_02 <= dist_13`, else cut 1-3.  The implicit
`bpy.context.active_object` of the source becomes the explicit `src`
transform, and the target object (guaranteed non-null by `invoke`) is passed
to `measure_diagonal_distance` as `some t`. -/
def process_face (f : Face) (t : Target) (maxProp planarity : ℚ) (src : Aff) : Decision :=
  let max_distance := effectiveMaxDistance maxProp
  if Len.leQb (centerDistance f) planarity then .keepQuad
  else
    if Dist.leb (measure_diagonal_distance f 0 2 (some t) max_distance src)
        (measure_diagonal_distance f 1 3 (some t) max_distance src) then .cutA
    else .cutB

/-! ### Concrete geometry used by counterexamples and witnesses -/

/-- A target whose queries always miss; its transform is the identity. -/
def trivialTarget : Target := ⟨Aff.idAff, fun _ => none, fun _ _ => none⟩

/-- A planar unit square quad (both diagonal midpoints at `(1/2, 1/2, 0)`,
center distance `0`), with its host-reported normal and area. -/
def squareFace : Face :=
  ⟨⟨0, 0, 0⟩, ⟨1, 0, 0⟩, ⟨1, 1, 0⟩, ⟨0, 1, 0⟩, ⟨0, 0, 1⟩, 1⟩

/-- A quad with a zero-length edge: `v0 = v1 = (0,0,0)`, so the edge `0-1`
has length `0 < 1e-7` (and the edge vectors from `v0` are collinear, so
`is_degenerate_face` fires as well); its diagonal midpoints are `(1/2, 0, 0)`
and `(1/2, 1/2, 0)`, at distance `1/2`, far above any small planarity
threshold. -/
def zeroEdgeFace : Face :=
  ⟨⟨0, 0, 0⟩, ⟨0, 0, 0⟩, ⟨1, 0, 0⟩, ⟨1, 1, 0⟩, ⟨0, 0, 1⟩, 1 / 2⟩

/-- A planar (hence nearly coplanar) but warped-in-plane quad: a trapezoid
whose diagonal midpoints `(1/2, 1/2, 0)` and `(1/2, 1, 0)` are at distance
`1/2`, exceeding a planarity threshold of `1/1000`. -/
def trapezoidFace : Face :=
  ⟨⟨0, 0, 0⟩, ⟨1, 0, 0⟩, ⟨1, 1, 0⟩, ⟨0, 2, 0⟩, ⟨0, 0, 1⟩, 3 / 2⟩

/-- A target (identity transform) whose nearest-point oracle answers the
diagonal-0-2 midpoint of `trapezoidFace` with a front-facing point straight
below it at distance `1` and every other query with a front-facing point at
distance `21/20`; its ray-cast oracle always misses. -/
def planeTarget : Target :=
  ⟨Aff.idAff,
    fun p =>
      if p = ⟨1 / 2, 1 / 2, 0⟩ then some (⟨1 / 2, 1 / 2, -1⟩, ⟨0, 0, 1⟩, 1)
      else some (⟨1 / 2, 1, -21 / 20⟩, ⟨0, 0, 1⟩, 21 / 20),
    fun _ _ => none⟩

/-! ### Helper lemmas shared across the claim theorems -/

theorem Face.vert_zero (f : Face) : f.vert 0 = f.v0 := rfl

theorem Face.vert_one (f : Face) : f.vert 1 = f.v1 := rfl

theorem Face.vert_two (f : Face) : f.vert 2 = f.v2 := rfl

theorem Face.vert_three (f : Face) : f.vert 3 = f.v3 := rfl

/-- Every edge of a quad shares an endpoint with the diagonal `0-2`, so the
self-intersection guard's loop body is never reached for it. -/
theorem has_self_diag02 (f : Face) : has_self_intersection f 0 2 = false := rfl

/-- Every edge of a quad shares an endpoint with the diagonal `1-3`, so the
self-intersection guard's loop body is never reached for it. -/
theorem has_self_diag13 (f : Face) : has_self_intersection f 1 3 = false := rfl

/-- When any of the three geometry guards fires, the measurement is `inf`
regardless of the target, the max distance, and the source transform. -/
theorem measure_inf_of_guard (f : Face) (i j : Fin 4) (t : Target)
    (maxd : MaxDist) (src : Aff)
    (h : is_degenerate_face f = true ∨ has_zero_length_edges f = true ∨
      has_self_intersection f i j = true) :
    measure_diagonal_distance f i j (some t) maxd src = .inf := by
  unfold measure_diagonal_distance
  rcases h with h | h | h
  · simp [h]
  · cases hd : is_degenerate_face f <;> simp [h, hd]
  · cases hd : is_degenerate_face f <;> cases hz : has_zero_length_edges f <;>
      simp [h, hd, hz]

/-- Unfolding of `get_closest_point_on_target` once the minimal surviving
result is known. -/
theorem get_closest_eq (p : Vec3) (t : Target) (n : Vec3) (loc : Vec3) (m : ℚ)
    (d : MaxDist) (h : minBySnd (validResults p t n) = some (loc, m)) :
    get_closest_point_on_target p t n d =
      if MaxDist.gtQb m d && MaxDist.posb d then none else some loc := by
  unfold get_closest_point_on_target
  rw [h]

/-- Enlarging a positive (or unlimited) max search distance preserves an
accepted closest point: the BVH queries do not depend on the max distance,
and the cutoff can only become slacker. -/
theorem get_closest_mono (p : Vec3) (t : Target) (n : Vec3) (d d' : MaxDist)
    (c : Vec3) (hpos : MaxDist.posb d = true) (hle : MaxDist.leb d d' = true)
    (h : get_closest_point_on_target p t n d = some c) :
    get_closest_point_on_target p t n d' = some c := by
  cases hmin : minBySnd (validResults p t n) with
  | none =>
      unfold get_closest_point_on_target at h
      rw [hmin] at h
      simp at h
  | some lm =>
      obtain ⟨loc, m⟩ := lm
      rw [get_closest_eq p t n loc m d hmin] at h
      rw [get_closest_eq p t n loc m d' hmin]
      have hmd : MaxDist.gtQb m d = false := by
        by_contra hc
        rw [Bool.not_eq_false] at hc
        rw [hc, hpos] at h
        simp at h
      rw [hmd, Bool.false_and] at h
      simp only [Bool.false_eq_true, if_false] at h
      have hmd' : MaxDist.gtQb m d' = false := by
        cases d with
        | inf =>
            cases d' with
            | inf => rfl
            | fin q' => simp [MaxDist.leb] at hle
        | fin q =>
            cases d' with
            | inf => rfl
            | fin q' =>
                simp only [MaxDist.gtQb, decide_eq_false_iff_not, not_lt] at hmd ⊢
                simp only [MaxDist.leb, decide_eq_true_eq] at hle
                exact le_trans hmd hle
      rw [hmd', Bool.false_and]
      simpa using h

/-- Unfolding of the measurement once all guards pass and the target query
returns a closest point: the result is the world-space distance to that
point, with the `1.1` penalty exactly when the face is nearly coplanar. -/
theorem measure_eq_of_closest (f : Face) (i j : Fin 4) (t : Target)
    (maxd : MaxDist) (src : Aff) (c : Vec3)
    (h1 : is_degenerate_face f = false) (h2 : has_zero_length_edges f = false)
    (h3 : has_self_intersection f i j = false)
    (h4 : get_closest_point_on_target (worldCenter src f i j) t
      (worldNormal src f) maxd = some c) :
    measure_diagonal_distance f i j (some t) maxd src =
      .fin (if is_nearly_coplanar f coplanarDefault then
        Len.scale (11 / 10) ((c - worldCenter src f i j).length)
      else (c - worldCenter src f i j).length) := by
  unfold measure_diagonal_distance
  simp [h1, h2, h3, h4]

/-- Reflexivity of the Python `<=` on measured distances (`inf <= inf` holds). -/
theorem Dist.leb_refl (d : Dist) : Dist.leb d d = true := by
  cases d <;> simp [Dist.leb, Len.leb]

/-- Components of a vector difference. -/
theorem Vec3.sub_def (a b : Vec3) : a - b = ⟨a.x - b.x, a.y - b.y, a.z - b.z⟩ := rfl

/-- Components of a vector sum. -/
theorem Vec3.add_def (a b : Vec3) : a + b = ⟨a.x + b.x, a.y + b.y, a.z + b.z⟩ := rfl

/-- The dot product of any vector with `v - v` vanishes. -/
theorem Vec3.dot_sub_self (n v : Vec3) : Vec3.dot n (v - v) = 0 := by
  simp [Vec3.dot, Vec3.sub_def]

/-! ### Concrete evaluations (used to discharge witness hypotheses) -/

theorem squareFace_planar : Len.leQb (centerDistance squareFace) (1 / 1000) = true := by
  norm_num [Len.leQb, centerDistance, diagCenter, squareFace, Face.vert_zero, Face.vert_one,
    Face.vert_two, Face.vert_three, Vec3.smul, Vec3.add_def, Vec3.sub_def, Vec3.length, Vec3.dot]

theorem zeroEdgeFace_guard : has_zero_length_edges zeroEdgeFace = true := by
  norm_num [has_zero_length_edges, faceEdges, zeroEdgeFace, Face.vert_zero, Face.vert_one,
    Face.vert_two, Face.vert_three, Len.ltQb, Vec3.sub_def, Vec3.length, Vec3.dot, epsilonTol]

theorem zeroEdgeFace_degen : is_degenerate_face zeroEdgeFace = true := by
  norm_num [is_degenerate_face, zeroEdgeFace, Len.ltQb, Vec3.sub_def, Vec3.cross, Vec3.length,
    Vec3.dot, epsilonTol]

theorem zeroEdgeFace_center : Len.leQb (centerDistance zeroEdgeFace) (1 / 1000) = false := by
  norm_num [Len.leQb, centerDistance, diagCenter, zeroEdgeFace, Face.vert_zero, Face.vert_one,
    Face.vert_two, Face.vert_three, Vec3.smul, Vec3.add_def, Vec3.sub_def, Vec3.length, Vec3.dot]

theorem trapezoidFace_center : Len.leQb (centerDistance trapezoidFace) (1 / 1000) = false := by
  norm_num [Len.leQb, centerDistance, diagCenter, trapezoidFace, Face.vert_zero, Face.vert_one,
    Face.vert_two, Face.vert_three, Vec3.smul, Vec3.add_def, Vec3.sub_def, Vec3.length, Vec3.dot]

theorem trapezoidFace_nondegen : is_degenerate_face trapezoidFace = false := by
  norm_num [is_degenerate_face, trapezoidFace, Len.ltQb, Vec3.sub_def, Vec3.cross, Vec3.length,
    Vec3.dot, epsilonTol]

theorem trapezoidFace_edges : has_zero_length_edges trapezoidFace = false := by
  norm_num [has_zero_length_edges, faceEdges, trapezoidFace, Face.vert_zero, Face.vert_one,
    Face.vert_two, Face.vert_three, Len.ltQb, Vec3.sub_def, Vec3.length, Vec3.dot, epsilonTol]

theorem trapezoidFace_coplanar : is_nearly_coplanar trapezoidFace coplanarDefault = true := by
  norm_num [is_nearly_coplanar, trapezoidFace, Vec3.sub_def, Vec3.dot, coplanarDefault]

theorem trapezoid_minA :
    minBySnd (validResults (worldCenter Aff.idAff trapezoidFace 0 2) planeTarget
      (worldNormal Aff.idAff trapezoidFace)) = some (⟨1 / 2, 1 / 2, -1⟩, 1) := by
  norm_num [minBySnd, validResults, frontFacingResult, worldCenter, worldNormal, diagCenter,
    trapezoidFace, planeTarget, Aff.apply, Aff.applyInv, Aff.normalXf, Aff.idAff, Mat3.mulVec,
    Mat3.transpose, Mat3.idMat, Vec3.dot, Vec3.smul, Vec3.add_def, Vec3.sub_def, Vec3.zero,
    Face.vert_zero, Face.vert_two]

theorem trapezoid_minB :
    minBySnd (validResults (worldCenter Aff.idAff trapezoidFace 1 3) planeTarget
      (worldNormal Aff.idAff trapezoidFace)) = some (⟨1 / 2, 1, -21 / 20⟩, 21 / 20) := by
  norm_num [minBySnd, validResults, frontFacingResult, worldCenter, worldNormal, diagCenter,
    trapezoidFace, planeTarget, Aff.apply, Aff.applyInv, Aff.normalXf, Aff.idAff, Mat3.mulVec,
    Mat3.transpose, Mat3.idMat, Vec3.dot, Vec3.smul, Vec3.add_def, Vec3.sub_def, Vec3.zero,
    Face.vert_one, Face.vert_three]

theorem trapezoid_closestA :
    get_closest_point_on_target (worldCenter Aff.idAff trapezoidFace 0 2) planeTarget
      (worldNormal Aff.idAff trapezoidFace) (effectiveMaxDistance 5) = some ⟨1 / 2, 1 / 2, -1⟩ := by
  rw [get_closest_eq _ planeTarget _ _ _ _ trapezoid_minA]
  norm_num [MaxDist.gtQb, MaxDist.posb, effectiveMaxDistance]

theorem trapezoid_closestB :
    get_closest_point_on_target (worldCenter Aff.idAff trapezoidFace 1 3) planeTarget
      (worldNormal Aff.idAff trapezoidFace) (effectiveMaxDistance 5) = some ⟨1 / 2, 1, -21 / 20⟩ := by
  rw [get_closest_eq _ planeTarget _ _ _ _ trapezoid_minB]
  norm_num [MaxDist.gtQb, MaxDist.posb, effectiveMaxDistance]

theorem trapezoid_closestA_fin2 :
    get_closest_point_on_target (worldCenter Aff.idAff trapezoidFace 0 2) planeTarget
      (worldNormal Aff.idAff trapezoidFace) (.fin 2) = some ⟨1 / 2, 1 / 2, -1⟩ := by
  rw [get_closest_eq _ planeTarget _ _ _ _ trapezoid_minA]
  norm_num [MaxDist.gtQb, MaxDist.posb]

theorem trapezoid_measureA_fin2 :
    measure_diagonal_distance trapezoidFace 0 2 (some planeTarget) (.fin 2) Aff.idAff =
      .fin (Len.scale (11 / 10)
        ((⟨1 / 2, 1 / 2, -1⟩ - worldCenter Aff.idAff trapezoidFace 0 2).length)) := by
  have hm := measure_eq_of_closest trapezoidFace 0 2 planeTarget (.fin 2) Aff.idAff
    ⟨1 / 2, 1 / 2, -1⟩ trapezoidFace_nondegen trapezoidFace_edges
    (has_self_diag02 trapezoidFace) trapezoid_closestA_fin2
  rw [hm, if_pos trapezoidFace_coplanar]

theorem trapezoid_measureA_fin1 :
    measure_diagonal_distance trapezoidFace 0 2 (some planeTarget) (.fin 1) Aff.idAff =
      .fin (Len.mk (121 / 100)) := by
  have hc : get_closest_point_on_target (worldCenter Aff.idAff trapezoidFace 0 2) planeTarget
      (worldNormal Aff.idAff trapezoidFace) (.fin 1) = some ⟨1 / 2, 1 / 2, -1⟩ := by
    rw [get_closest_eq _ planeTarget _ _ _ _ trapezoid_minA]
    norm_num [MaxDist.gtQb, MaxDist.posb]
  have hm := measure_eq_of_closest trapezoidFace 0 2 planeTarget (.fin 1) Aff.idAff
    ⟨1 / 2, 1 / 2, -1⟩ trapezoidFace_nondegen trapezoidFace_edges
    (has_self_diag02 trapezoidFace) hc
  rw [hm, if_pos trapezoidFace_coplanar]
  norm_num [Len.scale, worldCenter, diagCenter, trapezoidFace, Aff.apply, Aff.idAff,
    Mat3.mulVec, Mat3.idMat, Vec3.dot, Vec3.smul, Vec3.add_def, Vec3.sub_def, Vec3.zero,
    Vec3.length, Face.vert_zero, Face.vert_two]

theorem trapezoid_rawA_sq :
    ((⟨1 / 2, 1 / 2, -1⟩ - worldCenter Aff.idAff trapezoidFace 0 2).length).sq = (1 : ℚ) ^ 2 := by
  norm_num [worldCenter, diagCenter, trapezoidFace, Aff.apply, Aff.idAff, Mat3.mulVec,
    Mat3.idMat, Vec3.dot, Vec3.smul, Vec3.add_def, Vec3.sub_def, Vec3.zero, Vec3.length,
    Face.vert_zero, Face.vert_two]

theorem trapezoid_raw_lt :
    Len.ltb ((⟨1 / 2, 1 / 2, -1⟩ - worldCenter Aff.idAff trapezoidFace 0 2).length)
      ((⟨1 / 2, 1, -21 / 20⟩ - worldCenter Aff.idAff trapezoidFace 1 3).length) = true := by
  norm_num [Len.ltb, worldCenter, diagCenter, trapezoidFace, Aff.apply, Aff.idAff, Mat3.mulVec,
    Mat3.idMat, Vec3.dot, Vec3.smul, Vec3.add_def, Vec3.sub_def, Vec3.zero, Vec3.length,
    Face.vert_zero, Face.vert_one, Face.vert_two, Face.vert_three]

/-! ### The claims -/

/-- C2: for every quad face whose two diagonal midpoints are at Euclidean
distance at most the planarity threshold, the decision is keep-as-quad, and
— no target query being issued — the result is the same for every target
surface (and every max distance and source transform). -/
theorem claim_C2 (f : Face) (t t' : Target) (maxp maxp' thr : ℚ) (src src' : Aff)
    (h : Len.leQb (centerDistance f) thr = true) :
    process_face f t maxp thr src = .keepQuad ∧
    process_face f t maxp thr src = process_face f t' maxp' thr src' := by
  unfold process_face
  simp [h]

theorem claim_C2_witness :
    Len.leQb (centerDistance squareFace) (1 / 1000) = true ∧
    (process_face squareFace trivialTarget 1 (1 / 1000) Aff.idAff = .keepQuad ∧
     process_face squareFace trivialTarget 1 (1 / 1000) Aff.idAff =
       process_face squareFace planeTarget 5 (1 / 1000) Aff.idAff) :=
  ⟨squareFace_planar,
    claim_C2 squareFace trivialTarget planeTarget 1 5 (1 / 1000) Aff.idAff Aff.idAff
      squareFace_planar⟩

/-- C3: for every quad face whose diagonal-midpoint distance exceeds the
planarity threshold, the decision is cut-diagonal-A exactly when
`dist_02 <= dist_13`, cut-diagonal-B exactly otherwise, and on exact ties
(including both distances unbounded) it is always cut-A. -/
theorem claim_C3 (f : Face) (t : Target) (maxp thr : ℚ) (src : Aff)
    (h : Len.leQb (centerDistance f) thr = false) :
    (process_face f t maxp thr src = .cutA ↔
      Dist.leb
        (measure_diagonal_distance f 0 2 (some t) (effectiveMaxDistance maxp) src)
        (measure_diagonal_distance f 1 3 (some t) (effectiveMaxDistance maxp) src) = true) ∧
    (process_face f t maxp thr src = .cutB ↔
      Dist.leb
        (measure_diagonal_distance f 0 2 (some t) (effectiveMaxDistance maxp) src)
        (measure_diagonal_distance f 1 3 (some t) (effectiveMaxDistance maxp) src) = false) ∧
    (measure_diagonal_distance f 0 2 (some t) (effectiveMaxDistance maxp) src =
        measure_diagonal_distance f 1 3 (some t) (effectiveMaxDistance maxp) src →
      process_face f t maxp thr src = .cutA) := by
  have hmain : process_face f t maxp thr src =
      if Dist.leb
        (measure_diagonal_distance f 0 2 (some t) (effectiveMaxDistance maxp) src)
        (measure_diagonal_distance f 1 3 (some t) (effectiveMaxDistance maxp) src)
      then .cutA else .cutB := by
    unfold process_face
    simp [h]
  refine ⟨?_, ?_, ?_⟩
  · rw [hmain]
    cases hleb : Dist.leb
        (measure_diagonal_distance f 0 2 (some t) (effectiveMaxDistance maxp) src)
        (measure_diagonal_distance f 1 3 (some t) (effectiveMaxDistance maxp) src) <;>
      simp [hleb]
  · rw [hmain]
    cases hleb : Dist.leb
        (measure_diagonal_distance f 0 2 (some t) (effectiveMaxDistance maxp) src)
        (measure_diagonal_distance f 1 3 (some t) (effectiveMaxDistance maxp) src) <;>
      simp [hleb]
  · intro he
    rw [hmain, he, Dist.leb_refl]
    simp

theorem claim_C3_witness :
    Len.leQb (centerDistance trapezoidFace) (1 / 1000) = false ∧
    ((process_face trapezoidFace trivialTarget 1 (1 / 1000) Aff.idAff = .cutA ↔
      Dist.leb
        (measure_diagonal_distance trapezoidFace 0 2 (some trivialTarget)
          (effectiveMaxDistance 1) Aff.idAff)
        (measure_diagonal_distance trapezoidFace 1 3 (some trivialTarget)
          (effectiveMaxDistance 1) Aff.idAff) = true) ∧
     (process_face trapezoidFace trivialTarget 1 (1 / 1000) Aff.idAff = .cutB ↔
      Dist.leb
        (measure_diagonal_distance trapezoidFace 0 2 (some trivialTarget)
          (effectiveMaxDistance 1) Aff.idAff)
        (measure_diagonal_distance trapezoidFace 1 3 (some trivialTarget)
          (effectiveMaxDistance 1) Aff.idAff) = false) ∧
     (measure_diagonal_distance trapezoidFace 0 2 (some trivialTarget)
          (effectiveMaxDistance 1) Aff.idAff =
        measure_diagonal_distance trapezoidFace 1 3 (some trivialTarget)
          (effectiveMaxDistance 1) Aff.idAff →
      process_face trapezoidFace trivialTarget 1 (1 / 1000) Aff.idAff = .cutA)) :=
  ⟨trapezoidFace_center,
    claim_C3 trapezoidFace trivialTarget 1 (1 / 1000) Aff.idAff trapezoidFace_center⟩

/-- C4: whenever `is_degenerate_face`, `has_zero_length_edges` or
`has_self_intersection` fires for a face and candidate diagonal, the
measurement is unbounded for EVERY target surface — in particular it is
decided before (and independently of) any nearest-point or ray-cast query. -/
theorem claim_C4 (f : Face) (i j : Fin 4) (maxd : MaxDist) (src : Aff)
    (h : is_degenerate_face f = true ∨ has_zero_length_edges f = true ∨
      has_self_intersection f i j = true) :
    ∀ t : Target, measure_diagonal_distance f i j (some t) maxd src = .inf :=
  fun t => measure_inf_of_guard f i j t maxd src h

theorem claim_C4_witness :
    (is_degenerate_face zeroEdgeFace = true ∨
      has_zero_length_edges zeroEdgeFace = true ∨
      has_self_intersection zeroEdgeFace 0 2 = true) ∧
    measure_diagonal_distance zeroEdgeFace 0 2 (some planeTarget) (.fin 5) Aff.idAff =
      .inf :=
  ⟨Or.inr (Or.inl zeroEdgeFace_guard),
    claim_C4 zeroEdgeFace 0 2 (.fin 5) Aff.idAff (Or.inr (Or.inl zeroEdgeFace_guard))
      planeTarget⟩

/-- C9: on a quad, either diagonal (0-2 or 1-3) shares an endpoint with every
face edge, so `has_self_intersection` always returns false for it — the
guard's loop body is unreachable — and consequently the measurement coincides
with the variant that has no self-intersection guard: this guard can never
make a quad's measurement unbounded. -/
theorem claim_C9 (f : Face) :
    has_self_intersection f 0 2 = false ∧ has_self_intersection f 1 3 = false ∧
    ∀ (target : Option Target) (maxd : MaxDist) (src : Aff),
      measure_diagonal_distance f 0 2 target maxd src =
        measure_no_self_guard f 0 2 target maxd src ∧
      measure_diagonal_distance f 1 3 target maxd src =
        measure_no_self_guard f 1 3 target maxd src := by
  refine ⟨has_self_diag02 f, has_self_diag13 f, ?_⟩
  intro target maxd src
  constructor <;>
  · cases target with
    | none => rfl
    | some t =>
        unfold measure_diagonal_distance measure_no_self_guard
        simp [has_self_diag02, has_self_diag13]

/-- C1 (corrected): the code has no abort-degenerate outcome.  On a face
failing a degeneracy guard — here the zero-length-edge face — whose diagonal
midpoints are farther apart than the planarity threshold, `process_face`
still decides cut-diagonal-A (both measurements are unbounded and the
tie-break picks `0-2`), so a diagonal edge IS added: the face is not skipped
and the mesh is mutated, contradicting the claim. -/
theorem claim_C1_counterexample :
    has_zero_length_edges zeroEdgeFace = true ∧
    process_face zeroEdgeFace trivialTarget 1 (1 / 1000) Aff.idAff = .cutA ∧
    Decision.addsEdge (process_face zeroEdgeFace trivialTarget 1 (1 / 1000) Aff.idAff) =
      some (0, 2) := by
  have h02 := measure_inf_of_guard zeroEdgeFace 0 2 trivialTarget (effectiveMaxDistance 1)
    Aff.idAff (Or.inl zeroEdgeFace_degen)
  have h13 := measure_inf_of_guard zeroEdgeFace 1 3 trivialTarget (effectiveMaxDistance 1)
    Aff.idAff (Or.inl zeroEdgeFace_degen)
  have hp : process_face zeroEdgeFace trivialTarget 1 (1 / 1000) Aff.idAff = .cutA := by
    unfold process_face
    rw [zeroEdgeFace_center]
    simp [h02, h13, Dist.leb]
  exact ⟨zeroEdgeFace_guard, hp, by rw [hp]; rfl⟩

/-- C1 (amended): a quad face that fails `is_degenerate_face` or
`has_zero_length_edges` is NOT aborted: both diagonal measurements return
unbounded, and if its diagonal-midpoint distance exceeds the planarity
threshold the tie-break cuts diagonal A, adding the 0-2 diagonal edge (the
face is left untouched only when the midpoint distance is within the
threshold). -/
theorem claim_C1 (f : Face) (t : Target) (maxp thr : ℚ) (src : Aff)
    (hg : is_degenerate_face f = true ∨ has_zero_length_edges f = true)
    (hc : Len.leQb (centerDistance f) thr = false) :
    process_face f t maxp thr src = .cutA ∧
    Decision.addsEdge (process_face f t maxp thr src) = some (0, 2) := by
  have h02 : measure_diagonal_distance f 0 2 (some t) (effectiveMaxDistance maxp) src =
      .inf := measure_inf_of_guard f 0 2 t _ src (hg.imp id Or.inl)
  have h13 : measure_diagonal_distance f 1 3 (some t) (effectiveMaxDistance maxp) src =
      .inf := measure_inf_of_guard f 1 3 t _ src (hg.imp id Or.inl)
  have hp : process_face f t maxp thr src = .cutA := by
    unfold process_face
    simp [hc, h02, h13, Dist.leb]
  exact ⟨hp, by rw [hp]; rfl⟩

theorem claim_C1_witness :
    (is_degenerate_face zeroEdgeFace = true ∨
      has_zero_length_edges zeroEdgeFace = true) ∧
    Len.leQb (centerDistance zeroEdgeFace) (1 / 1000) = false ∧
    (process_face zeroEdgeFace planeTarget 5 (1 / 1000) Aff.idAff = .cutA ∧
     Decision.addsEdge (process_face zeroEdgeFace planeTarget 5 (1 / 1000) Aff.idAff) =
       some (0, 2)) :=
  ⟨Or.inl zeroEdgeFace_degen, zeroEdgeFace_center,
    claim_C1 zeroEdgeFace planeTarget 5 (1 / 1000) Aff.idAff (Or.inl zeroEdgeFace_degen)
      zeroEdgeFace_center⟩

/-- C5: on a nearly coplanar face, the measured distance of each diagonal is
its raw world-space distance multiplied by `1.1`; the same positive factor on
both diagonals preserves a strict raw ordering, so when raw `dist_02` is
below raw `dist_13` the penalised comparison still selects cut-diagonal-A. -/
theorem claim_C5 (f : Face) (t : Target) (maxp thr : ℚ) (src : Aff) (pA pB : Vec3)
    (hcop : is_nearly_coplanar f coplanarDefault = true)
    (hdeg : is_degenerate_face f = false)
    (hzero : has_zero_length_edges f = false)
    (hA : get_closest_point_on_target (worldCenter src f 0 2) t (worldNormal src f)
      (effectiveMaxDistance maxp) = some pA)
    (hB : get_closest_point_on_target (worldCenter src f 1 3) t (worldNormal src f)
      (effectiveMaxDistance maxp) = some pB)
    (hlt : Len.ltb ((pA - worldCenter src f 0 2).length)
      ((pB - worldCenter src f 1 3).length) = true)
    (hcd : Len.leQb (centerDistance f) thr = false) :
    measure_diagonal_distance f 0 2 (some t) (effectiveMaxDistance maxp) src =
      .fin (Len.scale (11 / 10) ((pA - worldCenter src f 0 2).length)) ∧
    measure_diagonal_distance f 1 3 (some t) (effectiveMaxDistance maxp) src =
      .fin (Len.scale (11 / 10) ((pB - worldCenter src f 1 3).length)) ∧
    Len.ltb (Len.scale (11 / 10) ((pA - worldCenter src f 0 2).length))
      (Len.scale (11 / 10) ((pB - worldCenter src f 1 3).length)) = true ∧
    process_face f t maxp thr src = .cutA := by
  have m02 := measure_eq_of_closest f 0 2 t (effectiveMaxDistance maxp) src pA hdeg hzero
    (has_self_diag02 f) hA
  have m13 := measure_eq_of_closest f 1 3 t (effectiveMaxDistance maxp) src pB hdeg hzero
    (has_self_diag13 f) hB
  rw [if_pos hcop] at m02 m13
  have hlt' : ((pA - worldCenter src f 0 2).length).sq <
      ((pB - worldCenter src f 1 3).length).sq := by
    simpa only [Len.ltb, decide_eq_true_eq] using hlt
  have hltS : Len.ltb (Len.scale (11 / 10) ((pA - worldCenter src f 0 2).length))
      (Len.scale (11 / 10) ((pB - worldCenter src f 1 3).length)) = true := by
    simp only [Len.ltb, Len.scale, decide_eq_true_eq]
    nlinarith [hlt']
  have hleS : Dist.leb (.fin (Len.scale (11 / 10) ((pA - worldCenter src f 0 2).length)))
      (.fin (Len.scale (11 / 10) ((pB - worldCenter src f 1 3).length))) = true := by
    simp only [Dist.leb, Len.leb, Len.scale, decide_eq_true_eq]
    nlinarith [hlt']
  refine ⟨m02, m13, hltS, ?_⟩
  unfold process_face
  rw [hcd]
  simp only [Bool.false_eq_true, if_false]
  rw [m02, m13, hleS]
  simp

theorem claim_C5_witness :
    is_nearly_coplanar trapezoidFace coplanarDefault = true ∧
    is_degenerate_face trapezoidFace = false ∧
    has_zero_length_edges trapezoidFace = false ∧
    get_closest_point_on_target (worldCenter Aff.idAff trapezoidFace 0 2) planeTarget
      (worldNormal Aff.idAff trapezoidFace) (effectiveMaxDistance 5) =
        some ⟨1 / 2, 1 / 2, -1⟩ ∧
    get_closest_point_on_target (worldCenter Aff.idAff trapezoidFace 1 3) planeTarget
      (worldNormal Aff.idAff trapezoidFace) (effectiveMaxDistance 5) =
        some ⟨1 / 2, 1, -21 / 20⟩ ∧
    Len.ltb ((⟨1 / 2, 1 / 2, -1⟩ - worldCenter Aff.idAff trapezoidFace 0 2).length)
      ((⟨1 / 2, 1, -21 / 20⟩ - worldCenter Aff.idAff trapezoidFace 1 3).length) = true ∧
    Len.leQb (centerDistance trapezoidFace) (1 / 1000) = false ∧
    (measure_diagonal_distance trapezoidFace 0 2 (some planeTarget)
        (effectiveMaxDistance 5) Aff.idAff =
      .fin (Len.scale (11 / 10)
        ((⟨1 / 2, 1 / 2, -1⟩ - worldCenter Aff.idAff trapezoidFace 0 2).length)) ∧
     measure_diagonal_distance trapezoidFace 1 3 (some planeTarget)
        (effectiveMaxDistance 5) Aff.idAff =
      .fin (Len.scale (11 / 10)
        ((⟨1 / 2, 1, -21 / 20⟩ - worldCenter Aff.idAff trapezoidFace 1 3).length)) ∧
     Len.ltb (Len.scale (11 / 10)
        ((⟨1 / 2, 1 / 2, -1⟩ - worldCenter Aff.idAff trapezoidFace 0 2).length))
       (Len.scale (11 / 10)
        ((⟨1 / 2, 1, -21 / 20⟩ - worldCenter Aff.idAff trapezoidFace 1 3).length)) = true ∧
     process_face trapezoidFace planeTarget 5 (1 / 1000) Aff.idAff = .cutA) :=
  ⟨trapezoidFace_coplanar, trapezoidFace_nondegen, trapezoidFace_edges, trapezoid_closestA,
    trapezoid_closestB, trapezoid_raw_lt, trapezoidFace_center,
    claim_C5 trapezoidFace planeTarget 5 (1 / 1000) Aff.idAff ⟨1 / 2, 1 / 2, -1⟩
      ⟨1 / 2, 1, -21 / 20⟩ trapezoidFace_coplanar trapezoidFace_nondegen trapezoidFace_edges
      trapezoid_closestA trapezoid_closestB trapezoid_raw_lt trapezoidFace_center⟩

/-- C6: the measurement is monotone in the effective max search distance:
for a fixed face, diagonal, target and source transform, a finite measurement
obtained at a positive (or unlimited) max distance `d` is reproduced, with
the same value, at every `d' ≥ d` — a valid match never degrades to
unbounded and its measured distance never changes when the search radius is
enlarged. -/
theorem claim_C6 (f : Face) (i j : Fin 4) (t : Target) (src : Aff)
    (d d' : MaxDist) (l : Len)
    (hpos : MaxDist.posb d = true) (hle : MaxDist.leb d d' = true)
    (h : measure_diagonal_distance f i j (some t) d src = .fin l) :
    measure_diagonal_distance f i j (some t) d' src = .fin l := by
  cases hdeg : is_degenerate_face f with
  | true =>
      rw [measure_inf_of_guard f i j t d src (Or.inl hdeg)] at h
      exact Dist.noConfusion h
  | false =>
      cases hzero : has_zero_length_edges f with
      | true =>
          rw [measure_inf_of_guard f i j t d src (Or.inr (Or.inl hzero))] at h
          exact Dist.noConfusion h
      | false =>
          cases hself : has_self_intersection f i j with
          | true =>
              rw [measure_inf_of_guard f i j t d src (Or.inr (Or.inr hself))] at h
              exact Dist.noConfusion h
          | false =>
              cases hc : get_closest_point_on_target (worldCenter src f i j) t
                  (worldNormal src f) d with
              | none =>
                  unfold measure_diagonal_distance at h
                  simp [hdeg, hzero, hself, hc] at h
              | some c =>
                  have hc' := get_closest_mono (worldCenter src f i j) t
                    (worldNormal src f) d d' c hpos hle hc
                  rw [measure_eq_of_closest f i j t d src c hdeg hzero hself hc] at h
                  rw [measure_eq_of_closest f i j t d' src c hdeg hzero hself hc']
                  exact h

theorem claim_C6_witness :
    MaxDist.posb (.fin 2) = true ∧ MaxDist.leb (.fin 2) (.fin 3) = true ∧
    measure_diagonal_distance trapezoidFace 0 2 (some planeTarget) (.fin 2) Aff.idAff =
      .fin (Len.scale (11 / 10)
        ((⟨1 / 2, 1 / 2, -1⟩ - worldCenter Aff.idAff trapezoidFace 0 2).length)) ∧
    measure_diagonal_distance trapezoidFace 0 2 (some planeTarget) (.fin 3) Aff.idAff =
      .fin (Len.scale (11 / 10)
        ((⟨1 / 2, 1 / 2, -1⟩ - worldCenter Aff.idAff trapezoidFace 0 2).length)) :=
  ⟨by norm_num [MaxDist.posb], by norm_num [MaxDist.leb], trapezoid_measureA_fin2,
    claim_C6 trapezoidFace 0 2 planeTarget Aff.idAff (.fin 2) (.fin 3)
      (Len.scale (11 / 10)
        ((⟨1 / 2, 1 / 2, -1⟩ - worldCenter Aff.idAff trapezoidFace 0 2).length))
      (by norm_num [MaxDist.posb]) (by norm_num [MaxDist.leb]) trapezoid_measureA_fin2⟩

/-- C7: for a nonnegative threshold, `is_nearly_coplanar` holds exactly when
every vertex of the face is within the threshold of the plane through `v0`
with the face normal (the distance being the absolute value of the normal's
dot product with the offset from `v0`; Blender keeps the face normal
normalised), and so it is false exactly when some vertex lies farther from
that plane than the threshold. -/
theorem claim_C7 (f : Face) (thr : ℚ) (h : 0 ≤ thr) :
    is_nearly_coplanar f thr = true ↔
      ∀ k : Fin 4, |Vec3.dot f.normal (f.vert k - f.v0)| ≤ thr := by
  unfold is_nearly_coplanar
  simp only [List.all_cons, List.all_nil, Bool.and_true, Bool.and_eq_true,
    decide_eq_true_eq]
  constructor
  · rintro ⟨h1, h2, h3⟩ k
    have h0 : |Vec3.dot f.normal (f.v0 - f.v0)| ≤ thr := by
      rw [Vec3.dot_sub_self]
      simpa using h
    fin_cases k
    · simpa [Face.vert] using h0
    · simpa [Face.vert] using h1
    · simpa [Face.vert] using h2
    · simpa [Face.vert] using h3
  · intro hk
    refine ⟨?_, ?_, ?_⟩
    · have := hk 1
      rwa [Face.vert_one] at this
    · have := hk 2
      rwa [Face.vert_two] at this
    · have := hk 3
      rwa [Face.vert_three] at this

theorem claim_C7_witness :
    (0 : ℚ) ≤ coplanarDefault ∧
    (is_nearly_coplanar trapezoidFace coplanarDefault = true ↔
      ∀ k : Fin 4,
        |Vec3.dot trapezoidFace.normal (trapezoidFace.vert k - trapezoidFace.v0)| ≤
          coplanarDefault) :=
  ⟨by norm_num [coplanarDefault],
    claim_C7 trapezoidFace coplanarDefault (by norm_num [coplanarDefault])⟩

/-- C8: once the guards pass and the front-facing survivors have minimal
BVH distance `m`: at a positive finite max distance below `m` the measurement
is unbounded (the cutoff fires); at a nonpositive finite max distance the
cutoff never discards the match; a nonpositive configured property maps to
the unlimited effective distance `inf`; and at `inf` the cutoff never
discards the match either. -/
theorem claim_C8 (f : Face) (i j : Fin 4) (t : Target) (src : Aff) (loc : Vec3) (m : ℚ)
    (hdeg : is_degenerate_face f = false) (hzero : has_zero_length_edges f = false)
    (hself : has_self_intersection f i j = false)
    (hmin : minBySnd (validResults (worldCenter src f i j) t (worldNormal src f)) =
      some (loc, m)) :
    (∀ q : ℚ, 0 < q → q < m →
      measure_diagonal_distance f i j (some t) (.fin q) src = .inf) ∧
    (∀ q : ℚ, q ≤ 0 →
      get_closest_point_on_target (worldCenter src f i j) t (worldNormal src f)
        (.fin q) = some loc) ∧
    (∀ p : ℚ, p ≤ 0 → effectiveMaxDistance p = .inf) ∧
    get_closest_point_on_target (worldCenter src f i j) t (worldNormal src f) .inf =
      some loc := by
  refine ⟨?_, ?_, ?_, ?_⟩
  · intro q hq hqm
    have hnone : get_closest_point_on_target (worldCenter src f i j) t (worldNormal src f)
        (.fin q) = none := by
      rw [get_closest_eq _ t _ loc m _ hmin]
      have hg : MaxDist.gtQb m (.fin q) = true := by
        simp only [MaxDist.gtQb, decide_eq_true_eq]
        exact hqm
      have hp : MaxDist.posb (.fin q) = true := by
        simp only [MaxDist.posb, decide_eq_true_eq]
        exact hq
      rw [hg, hp]
      simp
    unfold measure_diagonal_distance
    simp [hdeg, hzero, hself, hnone]
  · intro q hq
    rw [get_closest_eq _ t _ loc m _ hmin]
    have hp : MaxDist.posb (.fin q) = false := by
      simp only [MaxDist.posb, decide_eq_false_iff_not, not_lt]
      exact hq
    rw [hp, Bool.and_false]
    simp
  · intro p hp
    unfold effectiveMaxDistance
    rw [if_neg (not_lt.mpr hp)]
  · rw [get_closest_eq _ t _ loc m _ hmin]
    simp [MaxDist.gtQb]

theorem claim_C8_witness :
    is_degenerate_face trapezoidFace = false ∧
    has_zero_length_edges trapezoidFace = false ∧
    has_self_intersection trapezoidFace 0 2 = false ∧
    minBySnd (validResults (worldCenter Aff.idAff trapezoidFace 0 2) planeTarget
      (worldNormal Aff.idAff trapezoidFace)) = some (⟨1 / 2, 1 / 2, -1⟩, 1) ∧
    measure_diagonal_distance trapezoidFace 0 2 (some planeTarget) (.fin (1 / 2))
      Aff.idAff = .inf :=
  ⟨trapezoidFace_nondegen, trapezoidFace_edges, has_self_diag02 trapezoidFace,
    trapezoid_minA,
    (claim_C8 trapezoidFace 0 2 planeTarget Aff.idAff ⟨1 / 2, 1 / 2, -1⟩ 1
      trapezoidFace_nondegen trapezoidFace_edges (has_self_diag02 trapezoidFace)
      trapezoid_minA).1 (1 / 2) (by norm_num) (by norm_num)⟩

/-- C10: the max-search-distance cutoff is applied to the raw BVH distance
`m` BEFORE the `1.1` nearly-coplanar penalty: an accepted match on a nearly
coplanar face yields the penalised world-space distance as the measurement
(so the penalty never turns a finite measurement into unbounded); when the
reported distance is honest (its square equals the squared world distance)
and within a finite max `q`, the penalised result is still at most `1.1 * q`
— and, concretely, with max distance `1` a raw distance of exactly `1` is
accepted and measures `sqrt (121/100) = 1.1 > 1`, exceeding the configured
max. -/
theorem claim_C10 (f : Face) (i j : Fin 4) (t : Target) (src : Aff) (d : MaxDist)
    (loc : Vec3) (m : ℚ)
    (hcop : is_nearly_coplanar f coplanarDefault = true)
    (hdeg : is_degenerate_face f = false) (hzero : has_zero_length_edges f = false)
    (hself : has_self_intersection f i j = false)
    (hmin : minBySnd (validResults (worldCenter src f i j) t (worldNormal src f)) =
      some (loc, m))
    (hacc : (MaxDist.gtQb m d && MaxDist.posb d) = false) :
    (get_closest_point_on_target (worldCenter src f i j) t (worldNormal src f) d =
        some loc ∧
     measure_diagonal_distance f i j (some t) d src =
       .fin (Len.scale (11 / 10) ((loc - worldCenter src f i j).length)) ∧
     measure_diagonal_distance f i j (some t) d src ≠ .inf) ∧
    (∀ q : ℚ, d = .fin q → 0 ≤ m → m ≤ q →
      ((loc - worldCenter src f i j).length).sq = m ^ 2 →
      Len.leQb (Len.scale (11 / 10) ((loc - worldCenter src f i j).length))
        (11 / 10 * q) = true) ∧
    (measure_diagonal_distance trapezoidFace 0 2 (some planeTarget) (.fin 1) Aff.idAff =
       .fin (Len.mk (121 / 100)) ∧
     Len.leQb (Len.mk (121 / 100)) 1 = false) := by
  have hsome : get_closest_point_on_target (worldCenter src f i j) t (worldNormal src f)
      d = some loc := by
    rw [get_closest_eq _ t _ loc m _ hmin, hacc]
    simp
  have hmeq := measure_eq_of_closest f i j t d src loc hdeg hzero hself hsome
  rw [if_pos hcop] at hmeq
  refine ⟨⟨hsome, hmeq, by rw [hmeq]; simp⟩, ?_, trapezoid_measureA_fin1, ?_⟩
  · intro q hdq hm0 hmq hhonest
    simp only [Len.leQb, Len.scale, decide_eq_true_eq]
    constructor
    · linarith
    · rw [hhonest]
      nlinarith
  · norm_num [Len.leQb]

theorem claim_C10_witness :
    is_nearly_coplanar trapezoidFace coplanarDefault = true ∧
    is_degenerate_face trapezoidFace = false ∧
    has_zero_length_edges trapezoidFace = false ∧
    has_self_intersection trapezoidFace 0 2 = false ∧
    minBySnd (validResults (worldCenter Aff.idAff trapezoidFace 0 2) planeTarget
      (worldNormal Aff.idAff trapezoidFace)) = some (⟨1 / 2, 1 / 2, -1⟩, 1) ∧
    (MaxDist.gtQb 1 (.fin 2) && MaxDist.posb (.fin 2)) = false ∧
    Len.leQb (Len.scale (11 / 10)
        ((⟨1 / 2, 1 / 2, -1⟩ - worldCenter Aff.idAff trapezoidFace 0 2).length))
      (11 / 10 * 2) = true :=
  ⟨trapezoidFace_coplanar, trapezoidFace_nondegen, trapezoidFace_edges,
    has_self_diag02 trapezoidFace, trapezoid_minA,
    by norm_num [MaxDist.gtQb, MaxDist.posb],
    (claim_C10 trapezoidFace 0 2 planeTarget Aff.idAff (.fin 2) ⟨1 / 2, 1 / 2, -1⟩ 1
      trapezoidFace_coplanar trapezoidFace_nondegen trapezoidFace_edges
      (has_self_diag02 trapezoidFace) trapezoid_minA
      (by norm_num [MaxDist.gtQb, MaxDist.posb])).2.1 2 rfl (by norm_num) (by norm_num)
      trapezoid_rawA_sq⟩

end TriangulateToTarget
